import Mathlib

/-!
Shallow embedding, in Lean 4, of the AI-Career-Navigator application
(`src/app.py`): the retrying Gateway wrapper `safe_generate_content`,
the three pipeline stages (`analyze_resume`, `research_gaps`,
`design_curriculum`) with their `st.cache_data` memoization, the skill-gap
list comprehension, and the button handler with its `run_id`-based
invalidation of `st.session_state.roadmap_result`.

Python machine-level details are modelled as follows.

* JSON values returned by the external `json.loads` are modelled by `JObj`:
  flat objects whose fields hold a string or an array of strings — the only
  shapes this program ever constructs or consumes.  `json.loads` itself is an
  external library function and is passed around explicitly as a parameter
  `loads : String → Option JObj` (`none` = the call raised).
* The external generation service (a collaborator outside this repository)
  is modelled from the spec as answering each attempt with either a result,
  a transient error (raised as the `APIError` class that line 73 of
  `app.py` catches) or a permanent error (raised as any other exception,
  caught at line 81).
* `st.cache_data` memoization is modelled by explicit association lists
  threaded through an `AppState` record; an argument whose Python name
  starts with an underscore (`_client`) is excluded from the cache key,
  exactly as Streamlit excludes it from hashing.
-/

/-- A response of the external generation service to one attempt.
Modelled from the spec (§6, §7): the service returns generated text, a
transient error (server overload / timeout, surfaced as the `APIError`
class caught at `app.py` line 73), or a permanent error (malformed
request / auth failure, surfaced as any other exception, caught at
`app.py` line 81). -/
inductive ServiceResponse (α : Type) where
  | success (a : α)
  | apiError
  | otherError
deriving DecidableEq, Repr

/-- How one call of `safe_generate_content` terminates: a returned value,
an `APIError` re-raised after the final retry (line 79), any other
exception re-raised at once (line 83), or the `return None` reached when
the loop body never runs (line 85, only possible for `max_retries = 0`). -/
inductive InvokeOutcome (α : Type) where
  | ok (a : α)
  | raisedAPIError
  | raisedOther
  | returnedNone
deriving DecidableEq, Repr

/-- The observable trace of one `safe_generate_content` call: its outcome,
how many attempts (requests to the service) were issued, and how many
8-second `time.sleep` pauses were taken between attempts. -/
structure InvokeTrace (α : Type) where
  outcome : InvokeOutcome α
  attempts : Nat
  sleeps : Nat
deriving DecidableEq, Repr

/-- The `for attempt in range(max_retries)` loop of `safe_generate_content`
(`app.py` lines 63-85), with the remote call modelled by
`service : Nat → ServiceResponse α` (the service's answer to each attempt
index).  On `APIError` with `attempt < max_retries - 1` the code sleeps
and continues; on the last attempt it re-raises.  Any other exception is
re-raised immediately.  `remaining` is `max_retries - attempt`. -/
def attemptLoop {α : Type} (service : Nat → ServiceResponse α) (attempt : Nat) :
    Nat → InvokeTrace α
  | 0 => ⟨.returnedNone, 0, 0⟩
  | remaining + 1 =>
    match service attempt with
    | .success a => ⟨.ok a, 1, 0⟩
    | .apiError =>
      if remaining = 0 then
        ⟨.raisedAPIError, 1, 0⟩
      else
        ⟨(attemptLoop service (attempt + 1) remaining).outcome,
         (attemptLoop service (attempt + 1) remaining).attempts + 1,
         (attemptLoop service (attempt + 1) remaining).sleeps + 1⟩
    | .otherError => ⟨.raisedOther, 1, 0⟩

/-- `safe_generate_content` (`app.py` lines 46-85) viewed as the bounded
retry policy on a mocked remote service: the loop starts at attempt 0
with the full retry budget.  (Its `st.cache_data` layer is modelled
separately, in the pipeline embedding below.) -/
def safe_generate_content {α : Type} (service : Nat → ServiceResponse α)
    (max_retries : Nat) : InvokeTrace α :=
  attemptLoop service 0 max_retries

/-- A mock service that fails with a transient error (`APIError`) on the
first `k` attempts and then succeeds with payload `p`. -/
def mkTransientService (k : Nat) (p : String) : Nat → ServiceResponse String :=
  fun attempt => if attempt < k then .apiError else .success p

/-- The skill-gap list comprehension of `design_curriculum`
(`app.py` lines 174-177):
`[skill for skill in required_skills if skill not in current_skills]`,
with Python's `in` on a list of strings being exact string equality. -/
def gap_skills (required_skills current_skills : List String) : List String :=
  required_skills.filter (fun skill => !(current_skills.contains skill))

/-- A JSON value as this program produces and consumes it: a flat object
whose fields are strings or arrays of strings. -/
inductive JVal where
  | vstr (s : String)
  | vstrs (ss : List String)
deriving DecidableEq, Repr

/-- A parsed JSON object (the result of a successful `json.loads`). -/
structure JObj where
  fields : List (String × JVal)
deriving DecidableEq, Repr

/-- Field access `obj[key]` as `Option` (Python raises `KeyError` on a
missing key). -/
def JObj.getField (j : JObj) (key : String) : Option JVal :=
  (j.fields.find? (fun p => p.1 = key)).map (fun p => p.2)

/-- `obj[key]` expected to be an array of strings. -/
def JObj.getStrs (j : JObj) (key : String) : Option (List String) :=
  match j.getField key with
  | some (.vstrs ss) => some ss
  | _ => none

/-- `obj[key]` expected to be a string. -/
def JObj.getStr (j : JObj) (key : String) : Option String :=
  match j.getField key with
  | some (.vstr s) => some s
  | _ => none

/-- The fixed fallback profile of `analyze_resume` (`app.py` lines 118-122). -/
def analyzerFallback : JObj :=
  ⟨[("current_skills", .vstrs ["Python", "SQL", "Data Analysis"]),
    ("current_roles", .vstrs ["Data Analyst", "Intern"]),
    ("target_career", .vstr ("Senior Data Scientist"))]⟩

/-- The fixed fallback market data of `research_gaps` (`app.py` lines 156-159). -/
def researcherFallback : JObj :=
  ⟨[("required_skills", .vstrs ["Advanced LLMs", "Cloud Deployment (GCP)",
      "Prompt Engineering", "Vector Databases", "CI/CD"]),
    ("salary_range", .vstr ("$140,000 - $200,000"))]⟩

/-- Python `s.strip()` with no arguments: remove leading and trailing
whitespace characters (modelled over the ASCII whitespace this program
deals with). -/
def pyStrip (s : String) : String :=
  ⟨(((s.data.dropWhile Char.isWhitespace).reverse).dropWhile Char.isWhitespace).reverse⟩

/-- Worker for Python `s.replace(old, new)`: scan the character list left
to right, replacing non-overlapping occurrences of `pat`; `fuel` bounds
the recursion and is chosen at the call site so it never runs out for a
non-empty `pat`. -/
def pyReplaceAux (pat repl : List Char) : Nat → List Char → List Char
  | 0, cs => cs
  | _ + 1, [] => []
  | fuel + 1, c :: cs =>
    if pat.isPrefixOf (c :: cs) then
      repl ++ pyReplaceAux pat repl fuel ((c :: cs).drop pat.length)
    else
      c :: pyReplaceAux pat repl fuel cs

/-- Python `s.replace(old, new)`: replace every non-overlapping
occurrence of `pat` in `s` by `repl`, left to right. -/
def pyReplace (s pat repl : String) : String :=
  ⟨pyReplaceAux pat.data repl.data (s.data.length + 1) s.data⟩

/-- The cleanup applied to the Gateway response text before parsing
(`app.py` lines 114 and 152):
`response.text.strip().replace("\x60\x60\x60json", "").replace("\x60\x60\x60", "")`. -/
def clean_json_text (text : String) : String :=
  pyReplace (pyReplace (pyStrip text) ("```json") ("")) ("```") ("")

/-- The shared parse-or-fallback step of Stages 1 and 2 (`app.py` lines
113-122 and 151-159): clean the response text, run the external
`json.loads` (`loads`), and on any parse failure return the stage's fixed
fallback object.  A successfully parsed object is returned as is — the
code never validates its shape. -/
def stage_parse (loads : String → Option JObj) (fallback : JObj)
    (text : String) : JObj :=
  match loads (clean_json_text text) with
  | some j => j
  | none => fallback

/-- Does a JSON object have the shape `analyze_resume`'s prompt demands
(`app.py` lines 95-100): keys `current_skills`, `current_roles` (arrays of
strings) and `target_career` (string)? The code itself never checks this. -/
def profileShape (j : JObj) : Bool :=
  (j.getStrs ("current_skills")).isSome &&
  (j.getStrs ("current_roles")).isSome &&
  (j.getStr ("target_career")).isSome

/-- A model of the external `json.loads` at the single input `"\x7b\x7d"`:
Python's `json.loads("\x7b\x7d")` succeeds and returns the empty object;
every other input is left unparsed. -/
def loads_empty_object : String → Option JObj :=
  fun s => if s = "\x7b\x7d" then some ⟨[]⟩ else none

/-- The system instruction of `analyze_resume` (`app.py` lines 95-100). -/
def analyzerSystemInstruction : String :=
  "You are a professional Resume Analyst. Your task is to extract key information from the provided resume text. Respond ONLY with a clean JSON object containing the following keys: \x27current_skills\x27 (array of strings), \x27current_roles\x27 (array of strings), \x27target_career\x27 (single string, the most likely next career path based on the resume)."

/-- The system instruction of `research_gaps` (`app.py` lines 133-138),
an f-string interpolating the target role. -/
def researcherSystemInstruction (target : String) : String :=
  "You are a Career Market Researcher. Use Google Search to find the TOP 5 most in-demand skills and the typical salary range (e.g., $120k - $180k) for a \x27" ++ target ++ "\x27 in the current market. Respond ONLY with a clean JSON object with keys: \x27required_skills\x27 (array of strings) and \x27salary_range\x27 (string)."

/-- The system instruction of `design_curriculum` (`app.py` lines 179-184). -/
def designerSystemInstruction : String :=
  "You are a world-class Curriculum Designer and Career Coach. Your task is to create a prescriptive, 6-Month Career Roadmap. The output MUST be a single, well-formatted Markdown document, not a JSON. Include sections for Summary, Skill Gaps, and the 6-Month Plan (Month 1 to Month 6)."

/-- The prompt of `design_curriculum` (`app.py` lines 186-197), an
f-string over the user profile data. -/
def designPrompt (current_role target salary current_skills required_skills : String)
    (gap : List String) : String :=
  "\n    --- USER PROFILE ---\n    Current Career: " ++ current_role ++
  "\n    Target Career: " ++ target ++ " (Salary: " ++ salary ++
  ")\n    Current Skills: " ++ current_skills ++
  "\n    Required Market Skills: " ++ required_skills ++
  "\n    Identified Skill Gaps: " ++
  (if gap.isEmpty then "None" else String.intercalate (", ") gap) ++
  "\n    \n    --- TASK ---\n    Generate a 6-month curriculum (Roadmap) focused on closing the identified skill gaps. \n    Each month should have 3-4 specific, actionable learning items.\n    "

/-- The cache key of one `safe_generate_content` call under
`st.cache_data`: every argument except the underscore-prefixed `_client`,
which Streamlit excludes from hashing.  `tools` records whether the
Google-Search tool list was attached (`None` vs `[google_search_tool]`). -/
structure GwRequest where
  model_name : String
  contents : String
  system_instruction : String
  max_retries : Nat
  tools : Bool
deriving DecidableEq, Repr

/-- Lookup in an association-list model of a `st.cache_data` store. -/
def cacheLookup {κ β : Type} [DecidableEq κ] : List (κ × β) → κ → Option β
  | [], _ => none
  | (k', v) :: rest, k => if k = k' then some v else cacheLookup rest k

/-- The mutable state of one Streamlit session: the three `st.cache_data`
stores (for `safe_generate_content`, `research_gaps`, `design_curriculum`;
`analyze_resume` is undecorated and has no store of its own), the
`st.session_state.roadmap_result` slot holding `(run_id, content)`, and a
count of requests actually issued to the remote service. -/
structure AppState where
  sgc_cache : List (GwRequest × String)
  rg_cache : List ((JObj × String × String) × JObj)
  dc_cache : List ((JObj × JObj × String × String) × String)
  roadmap_result : Option (String × String)
  gateway_calls : Nat
deriving DecidableEq, Repr

/-- The session state on first load: empty caches, `roadmap_result = None`
(`app.py` lines 35-36), no remote request issued yet. -/
def emptyAppState : AppState := ⟨[], [], [], none, 0⟩

/-- `safe_generate_content` with its `st.cache_data` layer, on the success
path of the remote service (`gw` is the deterministic mocked Gateway,
mapping a request to its response text): a cache hit skips the remote
call entirely; a miss issues exactly one remote request and stores the
response under the request key. -/
def safe_generate_content_cached (gw : GwRequest → String) (req : GwRequest)
    (st : AppState) : String × AppState :=
  match cacheLookup st.sgc_cache req with
  | some text => (text, st)
  | none =>
    let text := gw req
    (text, { st with sgc_cache := (req, text) :: st.sgc_cache,
                     gateway_calls := st.gateway_calls + 1 })

/-- The Gateway request issued by `analyze_resume` (`app.py` lines
102-111): the flash model, the resume prompt, the analyzer system
instruction, the default `max_retries=7`, no tools. -/
def analyzeRequest (resume_text : String) : GwRequest :=
  ⟨"gemini-2.5-flash",
   "Analyze the following resume text and return the required JSON:\n\n---\n" ++ resume_text,
   analyzerSystemInstruction, 7, false⟩

/-- Stage 1, `analyze_resume` (`app.py` lines 91-122): build the prompt
from the resume text, call the (cached) Gateway, parse the response with
fallback.  The function itself carries no `st.cache_data` decorator. -/
def analyze_resume (gw : GwRequest → String) (loads : String → Option JObj)
    (resume_text : String) (st : AppState) : JObj × AppState :=
  let (text, st') := safe_generate_content_cached gw (analyzeRequest resume_text) st
  (stage_parse loads analyzerFallback text, st')

/-- The Gateway request issued by `research_gaps` (`app.py` lines
140-149): the flash model, the market prompt, the researcher system
instruction, the default `max_retries=7`, with the Google-Search tool
attached. -/
def researchRequest (target_role : String) : GwRequest :=
  ⟨"gemini-2.5-flash",
   "Find the current market requirements for a " ++ target_role ++ ".",
   researcherSystemInstruction target_role, 7, true⟩

/-- Stage 2, `research_gaps` (`app.py` lines 125-159), under
`st.cache_data`: keyed on `(analysis_data, current_role, target_role)`
(all arguments except `_client`); on a miss, build the search-augmented
Gateway request, parse with fallback, and store the result. -/
def research_gaps (gw : GwRequest → String) (loads : String → Option JObj)
    (analysis_data : JObj) (current_role target_role : String)
    (st : AppState) : JObj × AppState :=
  match cacheLookup st.rg_cache (analysis_data, current_role, target_role) with
  | some j => (j, st)
  | none =>
    let (text, st') := safe_generate_content_cached gw (researchRequest target_role) st
    let j := stage_parse loads researcherFallback text
    (j, { st' with
            rg_cache := ((analysis_data, current_role, target_role), j) :: st'.rg_cache })

/-- The Gateway request issued by `design_curriculum` (`app.py` lines
167-206): the pro model, the roadmap prompt built from the joined skill
lists and the computed gap, the designer system instruction, the default
`max_retries=7`, no tools. -/
def designRequest (current_role target_role salary : String)
    (cs rs : List String) : GwRequest :=
  ⟨"gemini-2.5-pro",
   designPrompt current_role target_role salary
     (String.intercalate (", ") cs) (String.intercalate (", ") rs)
     (gap_skills rs cs),
   designerSystemInstruction, 7, false⟩

/-- Stage 3, `design_curriculum` (`app.py` lines 162-208), under
`st.cache_data`: keyed on all arguments except `_client`.  On a miss the
body first subscripts `analysis_data["current_skills"]`,
`research_data["required_skills"]` and `research_data["salary_range"]`
(a missing or wrongly-typed field raises `KeyError` before any Gateway
call — modelled as `Except.error`), computes the skill gap, builds the
prompt and calls the Gateway. -/
def design_curriculum (gw : GwRequest → String)
    (analysis_data research_data : JObj) (current_role target_role : String)
    (st : AppState) : Except String String × AppState :=
  match cacheLookup st.dc_cache (analysis_data, research_data, current_role, target_role) with
  | some md => (.ok md, st)
  | none =>
    match analysis_data.getStrs ("current_skills"),
          research_data.getStrs ("required_skills"),
          research_data.getStr ("salary_range") with
    | some cs, some rs, some salary =>
      let (text, st') := safe_generate_content_cached gw
        (designRequest current_role target_role salary cs rs) st
      (.ok text, { st' with
         dc_cache := ((analysis_data, research_data, current_role, target_role), text)
                       :: st'.dc_cache })
    | _, _, _ => (.error ("KeyError"), st)

/-- The run identifier of the button handler (`app.py` line 247): the
separator-free concatenation of the three text inputs. -/
def run_id (current_role_input target_role_input resume_text_input : String) : String :=
  current_role_input ++ target_role_input ++ resume_text_input

/-- The staleness check of the button handler (`app.py` lines 249-251):
if a roadmap result is stored and its recorded `run_id` differs from the
current one, reset `st.session_state.roadmap_result` to `None`.  Nothing
else is touched. -/
def invalidate_stale (rid : String) (st : AppState) : AppState :=
  match st.roadmap_result with
  | some r => if r.1 ≠ rid then { st with roadmap_result := none } else st
  | none => st

/-- How one click of the generate button ends: rejected for a blank
resume (`app.py` lines 240-242), completed with the stage outputs and the
roadmap text (lines 254-282), or aborted by the `except` branch
(lines 284-286). -/
inductive RunOutcome where
  | missingInput
  | completed (analysis research : JObj) (roadmap : String)
  | failed
deriving DecidableEq, Repr

/-- The SkillGap derived entity of one run (spec §3): the skill-gap list
as `design_curriculum` computes it (`app.py` lines 174-177) from the
Stage 1 and Stage 2 outputs. -/
def skillGapOf (analysis_data research_data : JObj) : List String :=
  gap_skills ((research_data.getStrs ("required_skills")).getD [])
             ((analysis_data.getStrs ("current_skills")).getD [])

/-- The button handler (`app.py` lines 237-286): reject a blank resume
before anything else; compute the `run_id` and clear a stale stored
roadmap; run Analyze, then Research, then Design strictly in order; on
success store `(run_id, roadmap)` in `roadmap_result`, and on an
exception reset `roadmap_result` to `None`. -/
def generate_roadmap_run (gw : GwRequest → String) (loads : String → Option JObj)
    (current_role_input target_role_input resume_text_input : String)
    (st : AppState) : RunOutcome × AppState :=
  if pyStrip resume_text_input = "" then (.missingInput, st)
  else
    let rid := run_id current_role_input target_role_input resume_text_input
    let st1 := invalidate_stale rid st
    let (analysis_output, st2) := analyze_resume gw loads resume_text_input st1
    let (research_output, st3) :=
      research_gaps gw loads analysis_output current_role_input target_role_input st2
    match design_curriculum gw analysis_output research_output
            current_role_input target_role_input st3 with
    | (.ok roadmap_markdown, st4) =>
      (.completed analysis_output research_output roadmap_markdown,
       { st4 with roadmap_result := some (rid, roadmap_markdown) })
    | (.error _, st4) =>
      (.failed, { st4 with roadmap_result := none })

/-- A deterministic mock Gateway used to instantiate closed statements:
every request is answered with the same response text. -/
def constGateway : GwRequest → String := fun _ => "mock roadmap text"

/-- A model of the external `json.loads` on inputs that are not valid
JSON: every call raises, i.e. returns `none`. -/
def failingLoads : String → Option JObj := fun _ => none

theorem attemptLoop_attempts_le {α : Type} (service : Nat → ServiceResponse α) :
    ∀ (remaining attempt : Nat), (attemptLoop service attempt remaining).attempts ≤ remaining := by
  intro remaining
  induction remaining with
  | zero => intro attempt; simp [attemptLoop]
  | succ r ih =>
    intro attempt
    simp only [attemptLoop]
    cases hsv : service attempt with
    | success a => simp
    | apiError =>
      by_cases hr : r = 0
      · simp [hr]
      · simpa [hr] using Nat.succ_le_succ (ih (attempt + 1))
    | otherError => simp

theorem attemptLoop_transient_success (k : Nat) (p : String) :
    ∀ (remaining attempt : Nat), attempt ≤ k → k < attempt + remaining →
      attemptLoop (mkTransientService k p) attempt remaining =
        ⟨.ok p, k - attempt + 1, k - attempt⟩ := by
  intro remaining
  induction remaining with
  | zero => intro attempt h1 h2; omega
  | succ r ih =>
    intro attempt h1 h2
    by_cases hak : attempt < k
    · have hserve : mkTransientService k p attempt = .apiError := by
        simp [mkTransientService, hak]
      have hr : ¬ (r = 0) := by omega
      have h1' : attempt + 1 ≤ k := by omega
      have h2' : k < (attempt + 1) + r := by omega
      simp only [attemptLoop, hserve, if_neg hr, ih (attempt + 1) h1' h2']
      congr 1 <;> omega
    · have hk : attempt = k := by omega
      have hserve : mkTransientService k p attempt = .success p := by
        simp [mkTransientService, hak]
      simp only [attemptLoop, hserve]
      congr 1 <;> omega

theorem attemptLoop_transient_exhaust (k : Nat) (p : String) :
    ∀ (remaining attempt : Nat), 1 ≤ remaining → attempt + remaining ≤ k →
      attemptLoop (mkTransientService k p) attempt remaining =
        ⟨.raisedAPIError, remaining, remaining - 1⟩ := by
  intro remaining
  induction remaining with
  | zero => intro attempt h1 h2; omega
  | succ r ih =>
    intro attempt h1 h2
    have hserve : mkTransientService k p attempt = .apiError := by
      have hak : attempt < k := by omega
      simp [mkTransientService, hak]
    by_cases hr : r = 0
    · subst hr
      simp [attemptLoop, hserve]
    · have h1' : 1 ≤ r := by omega
      have h2' : (attempt + 1) + r ≤ k := by omega
      simp only [attemptLoop, hserve, if_neg hr, ih (attempt + 1) h1' h2']
      congr 1 <;> omega

/-- C2: for every retry bound `N ≥ 1` and mock service failing transiently
exactly `k` times before succeeding, `safe_generate_content` returns the
success after exactly `k + 1` attempts when `N ≥ k + 1`, raises the
transient error after exactly `N` attempts when `N ≤ k`, and — for any
service whatsoever — never issues more than `N` attempts in one call
(each call restarts at attempt 0 with the full budget). -/
theorem safe_generate_content_retry_bound (N k : Nat) (p : String) (hN : 1 ≤ N) :
    (k + 1 ≤ N →
      safe_generate_content (mkTransientService k p) N = ⟨.ok p, k + 1, k⟩) ∧
    (N ≤ k →
      safe_generate_content (mkTransientService k p) N = ⟨.raisedAPIError, N, N - 1⟩) ∧
    (∀ (service : Nat → ServiceResponse String),
      (safe_generate_content service N).attempts ≤ N) := by
  refine ⟨fun h => ?_, fun h => ?_, fun service => ?_⟩
  · rw [safe_generate_content, attemptLoop_transient_success k p N 0 (by omega) (by omega)]
    simp
  · rw [safe_generate_content, attemptLoop_transient_exhaust k p N 0 (by omega) (by omega)]
  · exact attemptLoop_attempts_le service N 0

theorem safe_generate_content_retry_bound_witness :
    (1 ≤ 3 ∧
      ((2 : Nat) + 1 ≤ 3 →
        safe_generate_content (mkTransientService 2 "done") 3 = ⟨.ok "done", 3, 2⟩)) ∧
    (1 ≤ 2 ∧
      ((2 : Nat) ≤ 5 →
        safe_generate_content (mkTransientService 5 "done") 2 = ⟨.raisedAPIError, 2, 1⟩)) :=
  ⟨⟨by decide, fun _ =>
      (safe_generate_content_retry_bound 3 2 "done" (by decide)).1 (by decide)⟩,
   ⟨by decide, fun _ =>
      (safe_generate_content_retry_bound 2 5 "done" (by decide)).2.1 (by decide)⟩⟩

/-- C3: an error raised outside the `APIError` class — the non-transient
category of the spec (§6, §7: malformed request, auth failure) — is
propagated on the very first attempt: one attempt, no retry, and no
inter-attempt sleep, for every retry bound `N ≥ 1`. -/
theorem safe_generate_content_permanent_immediate {α : Type}
    (service : Nat → ServiceResponse α) (N : Nat) (hN : 1 ≤ N)
    (h : service 0 = .otherError) :
    safe_generate_content service N = ⟨.raisedOther, 1, 0⟩ := by
  obtain ⟨m, rfl⟩ : ∃ m, N = m + 1 := ⟨N - 1, by omega⟩
  simp [safe_generate_content, attemptLoop, h]

theorem safe_generate_content_permanent_immediate_witness :
    1 ≤ 7 ∧
    (fun _ => (ServiceResponse.otherError : ServiceResponse String)) 0 = .otherError ∧
    safe_generate_content (fun _ => (ServiceResponse.otherError : ServiceResponse String)) 7 =
      ⟨.raisedOther, 1, 0⟩ :=
  ⟨by decide, rfl,
   safe_generate_content_permanent_immediate (fun _ => .otherError) 7 (by decide) rfl⟩

/-- C1 counterexample: the gap computation is not case/whitespace
insensitive — `computeGap({"Python"}, {"python "})` is not empty, so the
claimed normalization does not happen in the code. -/
theorem gap_skills_normalization_cex :
    ¬ (gap_skills ["Python"] ["python "] = []) := by decide

/-- C1 (amended): the gap computation applies no lowercasing, trimming or
title-casing: membership is exact string equality, so
`computeGap({"Python"}, {"python "}) = {"Python"}` and
`computeGap({"SQL","Python","Docker"}, {"sql","java"})
  = {"SQL","Python","Docker"}`. -/
theorem gap_skills_exact_equality_examples :
    gap_skills ["Python"] ["python "] = ["Python"] ∧
    gap_skills ["SQL", "Python", "Docker"] ["sql", "java"] =
      ["SQL", "Python", "Docker"] := by decide

/-- C10: the skill-gap list is the subsequence of the required-skills
list whose elements are not members of the existing-skills list under
exact string equality: it preserves order (a sublist of `R`), keeps
elements verbatim, and retains duplicates (counts are preserved for
non-members of `E` and zero for members). -/
theorem gap_skills_exact_filter (R E : List String) :
    (gap_skills R E).Sublist R ∧
    (∀ s, (gap_skills R E).count s = if s ∈ E then 0 else R.count s) := by
  refine ⟨List.filter_sublist R, fun s => ?_⟩
  by_cases h : s ∈ E
  · rw [if_pos h]
    refine List.count_eq_zero.mpr ?_
    simp [gap_skills, List.mem_filter, h]
  · rw [if_neg h]
    exact List.count_filter (by simp [h])

/-- C9: the run identifier is the separator-free concatenation of the
three inputs, hence not injective — `("ab","c")` and `("a","bc")` with
the same resume collide — and on such a collision the staleness check of
`app.py` lines 249-251 keeps the roadmap stored by the earlier, different
input triple. -/
theorem run_id_collision_keeps_stale_roadmap :
    run_id "ab" "c" "r" = run_id "a" "bc" "r" ∧
    (("ab", "c") : String × String) ≠ ("a", "bc") ∧
    invalidate_stale (run_id "a" "bc" "r")
        { emptyAppState with roadmap_result := some (run_id "ab" "c" "r", "old roadmap") } =
      { emptyAppState with roadmap_result := some (run_id "ab" "c" "r", "old roadmap") } := by
  refine ⟨by decide, by decide, ?_⟩
  simp [invalidate_stale, run_id, emptyAppState]

/-- C8: a blank (empty or all-whitespace) resume is rejected before
anything else happens: the handler returns the missing-input outcome and
the state — caches, gateway-call count, stored roadmap — is untouched, so
no Gateway call is issued and no stage runs. -/
theorem blank_resume_rejected (gw : GwRequest → String)
    (loads : String → Option JObj) (cur tgt resume : String) (st : AppState)
    (h : pyStrip resume = "") :
    generate_roadmap_run gw loads cur tgt resume st = (.missingInput, st) := by
  simp [generate_roadmap_run, h]

theorem blank_resume_rejected_witness :
    (pyStrip ("  \n ") = "") ∧
    generate_roadmap_run constGateway failingLoads "Data Analyst" "AI Engineer"
      ("  \n ") emptyAppState = (.missingInput, emptyAppState) :=
  ⟨by decide,
   blank_resume_rejected constGateway failingLoads "Data Analyst" "AI Engineer"
     ("  \n ") emptyAppState (by decide)⟩

/-- C6 (amended): when the tracked inputs change, the handler's
invalidation step clears only the stored roadmap
(`st.session_state.roadmap_result`); every memoization cache — and hence
every stage output stored under a prior key — is left untouched and
remains retrievable. -/
theorem invalidate_stale_clears_only_roadmap_result (rid : String) (st : AppState) :
    (invalidate_stale rid st).sgc_cache = st.sgc_cache ∧
    (invalidate_stale rid st).rg_cache = st.rg_cache ∧
    (invalidate_stale rid st).dc_cache = st.dc_cache ∧
    (invalidate_stale rid st).gateway_calls = st.gateway_calls ∧
    (invalidate_stale rid st).roadmap_result =
      (match st.roadmap_result with
       | some r => if r.1 = rid then some r else none
       | none => none) := by
  unfold invalidate_stale
  cases hrm : st.roadmap_result with
  | none => simp [hrm]
  | some r => by_cases h : r.1 = rid <;> simp [hrm, h]

/-- C4 counterexample: the Gateway response text `"\x7b\x7d"` parses as
JSON (the empty object) but is not structured output of the expected
shape; Stage 1's parse step returns that empty object as is — not the
documented fallback profile — so parse-but-wrong-shape responses are not
replaced by the fallback. -/
theorem wrong_shape_not_replaced_by_fallback_cex :
    profileShape (stage_parse loads_empty_object analyzerFallback ("\x7b\x7d")) = false ∧
    stage_parse loads_empty_object analyzerFallback ("\x7b\x7d") ≠ analyzerFallback := by
  decide

/-- C4 (amended): Stages 1 and 2 return their fixed fallback object
exactly when the external `json.loads` fails on the cleaned response
text (instead of letting the exception escape); a response that parses
successfully is returned as parsed, with no shape validation. -/
theorem stage_parse_fallback_on_parse_failure
    (loads : String → Option JObj) (text : String)
    (h : loads (clean_json_text text) = none) :
    stage_parse loads analyzerFallback text = analyzerFallback ∧
    stage_parse loads researcherFallback text = researcherFallback ∧
    (∀ (text' : String) (j : JObj), loads (clean_json_text text') = some j →
      stage_parse loads analyzerFallback text' = j ∧
      stage_parse loads researcherFallback text' = j) := by
  refine ⟨by simp [stage_parse, h], by simp [stage_parse, h], fun text' j hj => ?_⟩
  constructor <;> simp [stage_parse, hj]

theorem stage_parse_fallback_on_parse_failure_witness :
    failingLoads (clean_json_text ("this is not json")) = none ∧
    stage_parse failingLoads analyzerFallback ("this is not json") = analyzerFallback ∧
    stage_parse failingLoads researcherFallback ("this is not json") = researcherFallback :=
  ⟨rfl,
   (stage_parse_fallback_on_parse_failure failingLoads ("this is not json") rfl).1,
   (stage_parse_fallback_on_parse_failure failingLoads ("this is not json") rfl).2.1⟩

theorem sgc_cached_hit (gw : GwRequest → String) (req : GwRequest)
    (st : AppState) (text : String)
    (h : cacheLookup st.sgc_cache req = some text) :
    safe_generate_content_cached gw req st = (text, st) := by
  unfold safe_generate_content_cached
  rw [h]

theorem sgc_cached_miss (gw : GwRequest → String) (req : GwRequest)
    (st : AppState) (h : cacheLookup st.sgc_cache req = none) :
    safe_generate_content_cached gw req st =
      (gw req, { st with sgc_cache := (req, gw req) :: st.sgc_cache,
                         gateway_calls := st.gateway_calls + 1 }) := by
  unfold safe_generate_content_cached
  rw [h]

theorem sgc_cached_idem (gw : GwRequest → String) (req : GwRequest) (st : AppState) :
    safe_generate_content_cached gw req (safe_generate_content_cached gw req st).2 =
      safe_generate_content_cached gw req st := by
  cases h : cacheLookup st.sgc_cache req with
  | some text =>
    rw [sgc_cached_hit gw req st text h]
    exact sgc_cached_hit gw req st text h
  | none =>
    rw [sgc_cached_miss gw req st h]
    exact sgc_cached_hit gw req _ (gw req) (by simp [cacheLookup])

theorem analyze_resume_eq (gw : GwRequest → String) (loads : String → Option JObj)
    (resume_text : String) (st : AppState) :
    analyze_resume gw loads resume_text st =
      (stage_parse loads analyzerFallback
         (safe_generate_content_cached gw (analyzeRequest resume_text) st).1,
       (safe_generate_content_cached gw (analyzeRequest resume_text) st).2) := rfl

theorem analyze_resume_idem (gw : GwRequest → String) (loads : String → Option JObj)
    (resume_text : String) (st : AppState) :
    analyze_resume gw loads resume_text (analyze_resume gw loads resume_text st).2 =
      analyze_resume gw loads resume_text st := by
  simp only [analyze_resume_eq, sgc_cached_idem]

theorem research_gaps_hit (gw : GwRequest → String) (loads : String → Option JObj)
    (analysis : JObj) (cur tgt : String) (st : AppState) (j : JObj)
    (h : cacheLookup st.rg_cache (analysis, cur, tgt) = some j) :
    research_gaps gw loads analysis cur tgt st = (j, st) := by
  unfold research_gaps
  rw [h]

theorem research_gaps_miss (gw : GwRequest → String) (loads : String → Option JObj)
    (analysis : JObj) (cur tgt : String) (st : AppState)
    (h : cacheLookup st.rg_cache (analysis, cur, tgt) = none) :
    research_gaps gw loads analysis cur tgt st =
      (stage_parse loads researcherFallback
         (safe_generate_content_cached gw (researchRequest tgt) st).1,
       { (safe_generate_content_cached gw (researchRequest tgt) st).2 with
           rg_cache := ((analysis, cur, tgt),
             stage_parse loads researcherFallback
               (safe_generate_content_cached gw (researchRequest tgt) st).1)
             :: ((safe_generate_content_cached gw (researchRequest tgt) st).2).rg_cache }) := by
  unfold research_gaps
  rw [h]

theorem research_gaps_idem (gw : GwRequest → String) (loads : String → Option JObj)
    (analysis : JObj) (cur tgt : String) (st : AppState) :
    research_gaps gw loads analysis cur tgt
        (research_gaps gw loads analysis cur tgt st).2 =
      research_gaps gw loads analysis cur tgt st := by
  cases h : cacheLookup st.rg_cache (analysis, cur, tgt) with
  | some j =>
    have h1 := research_gaps_hit gw loads analysis cur tgt st j h
    rw [h1]
    exact h1
  | none =>
    have h1 := research_gaps_miss gw loads analysis cur tgt st h
    rw [h1]
    exact research_gaps_hit gw loads analysis cur tgt _ _ (by simp [cacheLookup])

theorem design_curriculum_hit (gw : GwRequest → String)
    (analysis research : JObj) (cur tgt : String) (st : AppState) (md : String)
    (h : cacheLookup st.dc_cache (analysis, research, cur, tgt) = some md) :
    design_curriculum gw analysis research cur tgt st = (.ok md, st) := by
  unfold design_curriculum
  rw [h]

theorem design_curriculum_miss (gw : GwRequest → String)
    (analysis research : JObj) (cur tgt : String) (st : AppState)
    (cs rs : List String) (salary : String)
    (h : cacheLookup st.dc_cache (analysis, research, cur, tgt) = none)
    (hcs : analysis.getStrs ("current_skills") = some cs)
    (hrs : research.getStrs ("required_skills") = some rs)
    (hsal : research.getStr ("salary_range") = some salary) :
    design_curriculum gw analysis research cur tgt st =
      (.ok (safe_generate_content_cached gw (designRequest cur tgt salary cs rs) st).1,
       { (safe_generate_content_cached gw (designRequest cur tgt salary cs rs) st).2 with
           dc_cache := ((analysis, research, cur, tgt),
             (safe_generate_content_cached gw (designRequest cur tgt salary cs rs) st).1)
             :: ((safe_generate_content_cached gw (designRequest cur tgt salary cs rs) st).2).dc_cache }) := by
  unfold design_curriculum
  rw [h, hcs, hrs, hsal]

theorem design_curriculum_keyerror_cs (gw : GwRequest → String)
    (analysis research : JObj) (cur tgt : String) (st : AppState)
    (h : cacheLookup st.dc_cache (analysis, research, cur, tgt) = none)
    (hcs : analysis.getStrs ("current_skills") = none) :
    design_curriculum gw analysis research cur tgt st = (.error ("KeyError"), st) := by
  unfold design_curriculum
  rw [h, hcs]

theorem design_curriculum_keyerror_rs (gw : GwRequest → String)
    (analysis research : JObj) (cur tgt : String) (st : AppState) (cs : List String)
    (h : cacheLookup st.dc_cache (analysis, research, cur, tgt) = none)
    (hcs : analysis.getStrs ("current_skills") = some cs)
    (hrs : research.getStrs ("required_skills") = none) :
    design_curriculum gw analysis research cur tgt st = (.error ("KeyError"), st) := by
  unfold design_curriculum
  rw [h, hcs, hrs]

theorem design_curriculum_keyerror_sal (gw : GwRequest → String)
    (analysis research : JObj) (cur tgt : String) (st : AppState)
    (cs rs : List String)
    (h : cacheLookup st.dc_cache (analysis, research, cur, tgt) = none)
    (hcs : analysis.getStrs ("current_skills") = some cs)
    (hrs : research.getStrs ("required_skills") = some rs)
    (hsal : research.getStr ("salary_range") = none) :
    design_curriculum gw analysis research cur tgt st = (.error ("KeyError"), st) := by
  unfold design_curriculum
  rw [h, hcs, hrs, hsal]

theorem design_curriculum_idem (gw : GwRequest → String)
    (analysis research : JObj) (cur tgt : String) (st : AppState) :
    design_curriculum gw analysis research cur tgt
        (design_curriculum gw analysis research cur tgt st).2 =
      design_curriculum gw analysis research cur tgt st := by
  cases h : cacheLookup st.dc_cache (analysis, research, cur, tgt) with
  | some md =>
    have h1 := design_curriculum_hit gw analysis research cur tgt st md h
    rw [h1]
    exact h1
  | none =>
    cases hcs : analysis.getStrs ("current_skills") with
    | none =>
      have h1 := design_curriculum_keyerror_cs gw analysis research cur tgt st h hcs
      rw [h1]
      exact design_curriculum_keyerror_cs gw analysis research cur tgt st h hcs
    | some cs =>
      cases hrs : research.getStrs ("required_skills") with
      | none =>
        have h1 := design_curriculum_keyerror_rs gw analysis research cur tgt st cs h hcs hrs
        rw [h1]
        exact design_curriculum_keyerror_rs gw analysis research cur tgt st cs h hcs hrs
      | some rs =>
        cases hsal : research.getStr ("salary_range") with
        | none =>
          have h1 := design_curriculum_keyerror_sal gw analysis research cur tgt st cs rs h hcs hrs hsal
          rw [h1]
          exact design_curriculum_keyerror_sal gw analysis research cur tgt st cs rs h hcs hrs hsal
        | some salary =>
          have h1 := design_curriculum_miss gw analysis research cur tgt st cs rs salary h hcs hrs hsal
          rw [h1]
          exact design_curriculum_hit gw analysis research cur tgt _ _ (by simp [cacheLookup])

/-- C5: starting from a fresh session (empty caches), two consecutive
calls of any one pipeline stage with identical inputs cause exactly one
underlying Gateway invocation: the first call brings the gateway-call
count to 1, and the second call returns the same output and leaves the
state unchanged (it is served from the cache, contacting nothing).  For
`analyze_resume` — itself undecorated — the second call is absorbed by
the `st.cache_data` layer of `safe_generate_content`; for `research_gaps`
and `design_curriculum` by their own `st.cache_data` layer.  The Design
stage is taken on well-shaped inputs (its body subscripts its inputs
before the Gateway call). -/
theorem stage_cache_single_gateway_call
    (gw : GwRequest → String) (loads : String → Option JObj)
    (resume cur tgt : String) (analysis research : JObj)
    (hA : (analysis.getStrs ("current_skills")).isSome = true)
    (hR : (research.getStrs ("required_skills")).isSome = true)
    (hS : (research.getStr ("salary_range")).isSome = true) :
    ((analyze_resume gw loads resume emptyAppState).2.gateway_calls = 1 ∧
      analyze_resume gw loads resume (analyze_resume gw loads resume emptyAppState).2 =
        analyze_resume gw loads resume emptyAppState) ∧
    ((research_gaps gw loads analysis cur tgt emptyAppState).2.gateway_calls = 1 ∧
      research_gaps gw loads analysis cur tgt
          (research_gaps gw loads analysis cur tgt emptyAppState).2 =
        research_gaps gw loads analysis cur tgt emptyAppState) ∧
    ((design_curriculum gw analysis research cur tgt emptyAppState).2.gateway_calls = 1 ∧
      design_curriculum gw analysis research cur tgt
          (design_curriculum gw analysis research cur tgt emptyAppState).2 =
        design_curriculum gw analysis research cur tgt emptyAppState) := by
  obtain ⟨cs, hcs⟩ := Option.isSome_iff_exists.mp hA
  obtain ⟨rs, hrs⟩ := Option.isSome_iff_exists.mp hR
  obtain ⟨salary, hsal⟩ := Option.isSome_iff_exists.mp hS
  refine ⟨⟨?_, analyze_resume_idem gw loads resume emptyAppState⟩,
          ⟨?_, research_gaps_idem gw loads analysis cur tgt emptyAppState⟩,
          ⟨?_, design_curriculum_idem gw analysis research cur tgt emptyAppState⟩⟩
  · rw [analyze_resume_eq, sgc_cached_miss gw (analyzeRequest resume) emptyAppState rfl]
    rfl
  · rw [research_gaps_miss gw loads analysis cur tgt emptyAppState rfl,
        sgc_cached_miss gw (researchRequest tgt) emptyAppState rfl]
    rfl
  · rw [design_curriculum_miss gw analysis research cur tgt emptyAppState
          cs rs salary rfl hcs hrs hsal,
        sgc_cached_miss gw (designRequest cur tgt salary cs rs) emptyAppState rfl]
    rfl

theorem stage_cache_single_gateway_call_witness :
    ((analyzerFallback.getStrs ("current_skills")).isSome = true ∧
     (researcherFallback.getStrs ("required_skills")).isSome = true ∧
     (researcherFallback.getStr ("salary_range")).isSome = true) ∧
    (((analyze_resume constGateway failingLoads "my resume" emptyAppState).2.gateway_calls = 1 ∧
      analyze_resume constGateway failingLoads "my resume"
          (analyze_resume constGateway failingLoads "my resume" emptyAppState).2 =
        analyze_resume constGateway failingLoads "my resume" emptyAppState) ∧
    ((research_gaps constGateway failingLoads analyzerFallback "Data Analyst" "AI Engineer"
        emptyAppState).2.gateway_calls = 1 ∧
      research_gaps constGateway failingLoads analyzerFallback "Data Analyst" "AI Engineer"
          (research_gaps constGateway failingLoads analyzerFallback "Data Analyst" "AI Engineer"
            emptyAppState).2 =
        research_gaps constGateway failingLoads analyzerFallback "Data Analyst" "AI Engineer"
          emptyAppState) ∧
    ((design_curriculum constGateway analyzerFallback researcherFallback "Data Analyst"
        "AI Engineer" emptyAppState).2.gateway_calls = 1 ∧
      design_curriculum constGateway analyzerFallback researcherFallback "Data Analyst"
          "AI Engineer"
          (design_curriculum constGateway analyzerFallback researcherFallback "Data Analyst"
            "AI Engineer" emptyAppState).2 =
        design_curriculum constGateway analyzerFallback researcherFallback "Data Analyst"
          "AI Engineer" emptyAppState)) :=
  ⟨⟨rfl, rfl, rfl⟩,
   stage_cache_single_gateway_call constGateway failingLoads "my resume" "Data Analyst"
     "AI Engineer" analyzerFallback researcherFallback rfl rfl rfl⟩

/-- C6 counterexample: run the pipeline once with current role `"c1"`,
then change the tracked role input to `"c2"` and trigger a new run.  The
Stage 2 output stored under the prior key `(analyzerFallback, "c1",
"t1")` is still retrievable from the `research_gaps` cache afterwards —
the caches are not cleared when a tracked input changes. -/
theorem cache_not_cleared_on_input_change_cex :
    cacheLookup
      ((generate_roadmap_run constGateway failingLoads "c2" "t1" "r1"
          (generate_roadmap_run constGateway failingLoads "c1" "t1" "r1"
            emptyAppState).2).2).rg_cache
      (analyzerFallback, "c1", "t1") = some researcherFallback := by
  set_option maxRecDepth 100000 in decide

theorem cacheLookup_cons_ne {κ β : Type} [DecidableEq κ] (k k' : κ) (v : β)
    (c : List (κ × β)) (h : ¬ (k = k')) :
    cacheLookup ((k', v) :: c) k = cacheLookup c k := by
  simp [cacheLookup, h]

theorem cacheLookup_cons_self {κ β : Type} [DecidableEq κ] (k : κ) (v : β)
    (c : List (κ × β)) :
    cacheLookup ((k, v) :: c) k = some v := by
  simp [cacheLookup]

theorem analyzeRequest_ne_researchRequest (resume tgt : String) :
    ¬ (analyzeRequest resume = researchRequest tgt) := by
  simp [analyzeRequest, researchRequest]

theorem analyzeRequest_ne_designRequest (resume cur tgt salary : String)
    (cs rs : List String) :
    ¬ (analyzeRequest resume = designRequest cur tgt salary cs rs) := by
  simp [analyzeRequest, designRequest]

theorem researchRequest_ne_designRequest (tgt cur tgt' salary : String)
    (cs rs : List String) :
    ¬ (researchRequest tgt = designRequest cur tgt' salary cs rs) := by
  simp [researchRequest, designRequest]


theorem generate_roadmap_run_completed (gw : GwRequest → String)
    (loads : String → Option JObj) (cur tgt resume : String) (st : AppState)
    (a1 r1 : JObj) (s2 s3 s4 : AppState) (md : String)
    (h : ¬ (pyStrip resume = ""))
    (ha : analyze_resume gw loads resume
            (invalidate_stale (run_id cur tgt resume) st) = (a1, s2))
    (hr : research_gaps gw loads a1 cur tgt s2 = (r1, s3))
    (hd : design_curriculum gw a1 r1 cur tgt s3 = (.ok md, s4)) :
    generate_roadmap_run gw loads cur tgt resume st =
      (.completed a1 r1 md,
       { s4 with roadmap_result := some (run_id cur tgt resume, md) }) := by
  unfold generate_roadmap_run
  rw [if_neg h]
  simp only [ha, hr, hd]

theorem generate_roadmap_run_failed (gw : GwRequest → String)
    (loads : String → Option JObj) (cur tgt resume : String) (st : AppState)
    (a1 r1 : JObj) (s2 s3 s4 : AppState) (e : String)
    (h : ¬ (pyStrip resume = ""))
    (ha : analyze_resume gw loads resume
            (invalidate_stale (run_id cur tgt resume) st) = (a1, s2))
    (hr : research_gaps gw loads a1 cur tgt s2 = (r1, s3))
    (hd : design_curriculum gw a1 r1 cur tgt s3 = (.error e, s4)) :
    generate_roadmap_run gw loads cur tgt resume st =
      (.failed, { s4 with roadmap_result := none }) := by
  unfold generate_roadmap_run
  rw [if_neg h]
  simp only [ha, hr, hd]

/-- C7: given a deterministic Gateway, re-running the full three-stage
pipeline on identical inputs reproduces the first run exactly — the same
outcome and the same session state — and in particular two completed
runs produce identical CandidateProfile (Stage 1 output),
MarketRequirement (Stage 2 output), derived SkillGap, and roadmap text:
the pipeline adds no nondeterminism of its own. -/
theorem pipeline_deterministic (gw : GwRequest → String) (loads : String → Option JObj)
    (cur tgt resume : String) :
    generate_roadmap_run gw loads cur tgt resume
        (generate_roadmap_run gw loads cur tgt resume emptyAppState).2 =
      generate_roadmap_run gw loads cur tgt resume emptyAppState ∧
    (∀ (a r a' r' : JObj) (md md' : String),
      (generate_roadmap_run gw loads cur tgt resume emptyAppState).1 =
          .completed a r md →
      (generate_roadmap_run gw loads cur tgt resume
          (generate_roadmap_run gw loads cur tgt resume emptyAppState).2).1 =
          .completed a' r' md' →
      a = a' ∧ r = r' ∧ skillGapOf a r = skillGapOf a' r' ∧ md = md') := by
  have main : generate_roadmap_run gw loads cur tgt resume
        (generate_roadmap_run gw loads cur tgt resume emptyAppState).2 =
      generate_roadmap_run gw loads cur tgt resume emptyAppState := by
    by_cases hres : pyStrip resume = ""
    · simp [generate_roadmap_run, hres]
    · set A := analyzeRequest resume with hA
      set R := researchRequest tgt with hR
      set a1 := stage_parse loads analyzerFallback (gw A) with ha1
      set sA : AppState := ⟨[(A, gw A)], [], [], none, 1⟩ with hsA
      set r1 := stage_parse loads researcherFallback (gw R) with hr1
      set sB : AppState :=
        ⟨[(R, gw R), (A, gw A)], [((a1, cur, tgt), r1)], [], none, 2⟩ with hsB
      set rid := run_id cur tgt resume with hrid
      have hRneA : ¬ (R = A) := fun h =>
        analyzeRequest_ne_researchRequest resume tgt h.symm
      have eA1 : analyze_resume gw loads resume (invalidate_stale rid emptyAppState) =
          (a1, sA) := by
        rw [show invalidate_stale rid emptyAppState = emptyAppState from rfl,
            analyze_resume_eq, sgc_cached_miss gw A emptyAppState rfl]
        rfl
      have hlookR : cacheLookup sA.sgc_cache R = none := by
        show cacheLookup [(A, gw A)] R = none
        rw [cacheLookup_cons_ne R A (gw A) [] hRneA]
        rfl
      have eR1 : research_gaps gw loads a1 cur tgt sA = (r1, sB) := by
        rw [research_gaps_miss gw loads a1 cur tgt sA rfl,
            sgc_cached_miss gw R sA hlookR]
      have eA2hit : ∀ (s : AppState), cacheLookup s.sgc_cache A = some (gw A) →
          analyze_resume gw loads resume (invalidate_stale rid s) =
            (a1, invalidate_stale rid s) := by
        intro s hs
        rw [analyze_resume_eq, sgc_cached_hit gw A (invalidate_stale rid s) (gw A) ?_]
        rw [(invalidate_stale_clears_only_roadmap_result rid s).1]
        exact hs
      rcases hcs : a1.getStrs ("current_skills") with _ | cs
      · have eD1 : design_curriculum gw a1 r1 cur tgt sB = (.error ("KeyError"), sB) :=
          design_curriculum_keyerror_cs gw a1 r1 cur tgt sB rfl hcs
        have erun1 : generate_roadmap_run gw loads cur tgt resume emptyAppState =
            (.failed, sB) :=
          generate_roadmap_run_failed gw loads cur tgt resume emptyAppState
            a1 r1 sA sB sB ("KeyError") hres eA1 eR1 eD1
        rw [erun1]
        have hlkA : cacheLookup sB.sgc_cache A = some (gw A) := by
          show cacheLookup [(R, gw R), (A, gw A)] A = some (gw A)
          rw [cacheLookup_cons_ne A R (gw R) _
                (analyzeRequest_ne_researchRequest resume tgt),
              cacheLookup_cons_self]
        have eA2 : analyze_resume gw loads resume (invalidate_stale rid sB) =
            (a1, sB) := eA2hit sB hlkA
        have eR2 : research_gaps gw loads a1 cur tgt sB = (r1, sB) :=
          research_gaps_hit gw loads a1 cur tgt sB r1
            (cacheLookup_cons_self (a1, cur, tgt) r1 [])
        exact generate_roadmap_run_failed gw loads cur tgt resume sB
          a1 r1 sB sB sB ("KeyError") hres eA2 eR2 eD1
      · rcases hrs : r1.getStrs ("required_skills") with _ | rs
        · have eD1 : design_curriculum gw a1 r1 cur tgt sB = (.error ("KeyError"), sB) :=
            design_curriculum_keyerror_rs gw a1 r1 cur tgt sB cs rfl hcs hrs
          have erun1 : generate_roadmap_run gw loads cur tgt resume emptyAppState =
              (.failed, sB) :=
            generate_roadmap_run_failed gw loads cur tgt resume emptyAppState
              a1 r1 sA sB sB ("KeyError") hres eA1 eR1 eD1
          rw [erun1]
          have hlkA : cacheLookup sB.sgc_cache A = some (gw A) := by
            show cacheLookup [(R, gw R), (A, gw A)] A = some (gw A)
            rw [cacheLookup_cons_ne A R (gw R) _
                  (analyzeRequest_ne_researchRequest resume tgt),
                cacheLookup_cons_self]
          have eA2 : analyze_resume gw loads resume (invalidate_stale rid sB) =
              (a1, sB) := eA2hit sB hlkA
          have eR2 : research_gaps gw loads a1 cur tgt sB = (r1, sB) :=
            research_gaps_hit gw loads a1 cur tgt sB r1
              (cacheLookup_cons_self (a1, cur, tgt) r1 [])
          exact generate_roadmap_run_failed gw loads cur tgt resume sB
            a1 r1 sB sB sB ("KeyError") hres eA2 eR2 eD1
        · rcases hsal : r1.getStr ("salary_range") with _ | salary
          · have eD1 : design_curriculum gw a1 r1 cur tgt sB = (.error ("KeyError"), sB) :=
              design_curriculum_keyerror_sal gw a1 r1 cur tgt sB cs rs rfl hcs hrs hsal
            have erun1 : generate_roadmap_run gw loads cur tgt resume emptyAppState =
                (.failed, sB) :=
              generate_roadmap_run_failed gw loads cur tgt resume emptyAppState
                a1 r1 sA sB sB ("KeyError") hres eA1 eR1 eD1
            rw [erun1]
            have hlkA : cacheLookup sB.sgc_cache A = some (gw A) := by
              show cacheLookup [(R, gw R), (A, gw A)] A = some (gw A)
              rw [cacheLookup_cons_ne A R (gw R) _
                    (analyzeRequest_ne_researchRequest resume tgt),
                  cacheLookup_cons_self]
            have eA2 : analyze_resume gw loads resume (invalidate_stale rid sB) =
                (a1, sB) := eA2hit sB hlkA
            have eR2 : research_gaps gw loads a1 cur tgt sB = (r1, sB) :=
              research_gaps_hit gw loads a1 cur tgt sB r1
                (cacheLookup_cons_self (a1, cur, tgt) r1 [])
            exact generate_roadmap_run_failed gw loads cur tgt resume sB
              a1 r1 sB sB sB ("KeyError") hres eA2 eR2 eD1
          · set D := designRequest cur tgt salary cs rs with hD
            set md := gw D with hmd
            set sC0 : AppState :=
              ⟨[(D, md), (R, gw R), (A, gw A)], [((a1, cur, tgt), r1)],
               [((a1, r1, cur, tgt), md)], none, 3⟩ with hsC0
            set sC : AppState :=
              ⟨[(D, md), (R, gw R), (A, gw A)], [((a1, cur, tgt), r1)],
               [((a1, r1, cur, tgt), md)], some (rid, md), 3⟩ with hsC
            have hlookD : cacheLookup sB.sgc_cache D = none := by
              show cacheLookup [(R, gw R), (A, gw A)] D = none
              rw [cacheLookup_cons_ne D R (gw R) _
                    (fun h => researchRequest_ne_designRequest tgt cur tgt salary cs rs h.symm),
                  cacheLookup_cons_ne D A (gw A) _
                    (fun h => analyzeRequest_ne_designRequest resume cur tgt salary cs rs h.symm)]
              rfl
            have eD1 : design_curriculum gw a1 r1 cur tgt sB = (.ok md, sC0) := by
              rw [design_curriculum_miss gw a1 r1 cur tgt sB cs rs salary rfl hcs hrs hsal,
                  sgc_cached_miss gw D sB hlookD]
            have erun1 : generate_roadmap_run gw loads cur tgt resume emptyAppState =
                (.completed a1 r1 md, sC) :=
              generate_roadmap_run_completed gw loads cur tgt resume emptyAppState
                a1 r1 sA sB sC0 md hres eA1 eR1 eD1
            rw [erun1]
            have einv2 : invalidate_stale rid sC = sC := by
              simp [invalidate_stale, hsC]
            have hlkA : cacheLookup sC.sgc_cache A = some (gw A) := by
              show cacheLookup [(D, md), (R, gw R), (A, gw A)] A = some (gw A)
              rw [cacheLookup_cons_ne A D md _
                    (analyzeRequest_ne_designRequest resume cur tgt salary cs rs),
                  cacheLookup_cons_ne A R (gw R) _
                    (analyzeRequest_ne_researchRequest resume tgt),
                  cacheLookup_cons_self]
            have eA2 : analyze_resume gw loads resume (invalidate_stale rid sC) =
                (a1, sC) := by
              rw [einv2, analyze_resume_eq, sgc_cached_hit gw A sC (gw A) hlkA]
            have eR2 : research_gaps gw loads a1 cur tgt sC = (r1, sC) :=
              research_gaps_hit gw loads a1 cur tgt sC r1
                (cacheLookup_cons_self (a1, cur, tgt) r1 [])
            have eD2 : design_curriculum gw a1 r1 cur tgt sC = (.ok md, sC) :=
              design_curriculum_hit gw a1 r1 cur tgt sC md
                (cacheLookup_cons_self (a1, r1, cur, tgt) md [])
            exact generate_roadmap_run_completed gw loads cur tgt resume sC
              a1 r1 sC sC sC md hres eA2 eR2 eD2
  refine ⟨main, fun a r a' r' md md' h1 h2 => ?_⟩
  rw [main, h1] at h2
  cases h2
  exact ⟨rfl, rfl, rfl, rfl⟩

theorem pipeline_deterministic_witness :
    ((generate_roadmap_run constGateway failingLoads "c" "t" "r" emptyAppState).1 =
       .completed analyzerFallback researcherFallback "mock roadmap text") ∧
    ((generate_roadmap_run constGateway failingLoads "c" "t" "r"
        (generate_roadmap_run constGateway failingLoads "c" "t" "r" emptyAppState).2).1 =
       .completed analyzerFallback researcherFallback "mock roadmap text") ∧
    (analyzerFallback = analyzerFallback ∧ researcherFallback = researcherFallback ∧
     skillGapOf analyzerFallback researcherFallback =
       skillGapOf analyzerFallback researcherFallback ∧
     ("mock roadmap text" : String) = "mock roadmap text") :=
  ⟨by set_option maxRecDepth 100000 in decide,
   by set_option maxRecDepth 100000 in decide,
   (pipeline_deterministic constGateway failingLoads "c" "t" "r").2
     analyzerFallback researcherFallback analyzerFallback researcherFallback
     "mock roadmap text" "mock roadmap text"
     (by set_option maxRecDepth 100000 in decide)
     (by set_option maxRecDepth 100000 in decide)⟩
